import Mathlib

/-!
Verification of the mission-briefing aggregation pipeline in
`src/challenge/challenge.three.ts`.

Modelling conventions (shallow embedding):
* JavaScript numbers are modelled by `ℚ` (exact rational arithmetic); the
  claims under study are formula-level statements that hold in any
  consistent arithmetic model.
* `Math.round` (round half towards positive infinity) is `jsRound`.
* A JavaScript value that may be absent, empty, or parse to `NaN` is
  modelled by `Option ℚ` where the code tests exactly for those cases:
  `none` stands for the missing/`NaN` case and `some q` for the
  successfully parsed number.  The miss-distance strings, whose guard
  tests only for `NaN`, are modelled by the four-way extended value
  `JsMiss` (NaN, the two infinities, finite), since an infinite coercion
  flows through that guard.
* Calendar arithmetic of the JS `Date` object (UTC, proleptic Gregorian)
  is modelled by the civil-from-days / days-from-civil conversions that
  the ECMAScript time-value semantics prescribes; integer division is the
  mathematical floor division (all divisors are positive, so `Int.ediv`,
  written `/`, coincides with it).
* The trigonometric haversine distance is modelled over `ℝ`.
* The orchestration of `main` is modelled as a function of an upstream
  oracle recording which adapters run, whether the briefing file is
  persisted, and the process exit code.
-/

namespace Briefing

/-- Threat classification levels produced by `computeThreat`. -/
inductive ThreatLevel where
  | LOW
  | MEDIUM
  | HIGH
deriving DecidableEq

/-- NeoSummary record (challenge.three.ts lines 67-78): the object-feed
summary.  Counts are naturals (they are produced by counting); the two
physical quantities and the echoed day count are rationals. -/
structure NeoSummary where
  days : ℚ
  totalCount : ℕ
  hazardousCount : ℕ
  maxEstimatedDiameterMeters : ℚ
  minMissDistanceKm : ℚ
  lt3 : ℕ
  gte3lt4 : ℕ
  gte4 : ℕ
deriving DecidableEq

/-- JavaScript Math.round: round half towards positive infinity,
floor (x + 1/2). -/
def jsRound (x : ℚ) : ℤ := ⌊x + 1/2⌋

/-- Embedding of computeThreat (challenge.three.ts lines 374-399): the
composite threat score and its three-level classification. -/
def computeThreat (neo : NeoSummary) (issDistanceKm hoursToLaunch : ℚ) :
    ℤ × ThreatLevel :=
  let missRisk : ℚ :=
    if neo.minMissDistanceKm = 0 then 0
    else max 0 (3 - neo.minMissDistanceKm / 1000000)
  let sizeRisk : ℚ := min 5 (neo.maxEstimatedDiameterMeters / 100)
  let issRisk : ℚ := max 0 (2 - issDistanceKm / 2000)
  let launchRisk : ℚ := max 0 (2 - hoursToLaunch / 24)
  let score : ℤ := jsRound
    ((neo.hazardousCount : ℚ) * 3 + (neo.totalCount : ℚ) * 0.2 +
      missRisk * 4 + sizeRisk * 2 + issRisk * 2 + launchRisk * 1)
  let level : ThreatLevel :=
    if score ≥ 18 then .HIGH else if score ≥ 10 then .MEDIUM else .LOW
  (score, level)

/-! Spec-side rendering of the composite-score sentence of the spec
(section 4.4), written from the words of the spec, to be compared with the
code-side `computeThreat`. -/

/-- Spec formula: miss-risk term, 0 if the minimum miss distance is
exactly 0, else max(0, 3 − minMissKm/1,000,000). -/
def specMissRisk (minMissKm : ℚ) : ℚ :=
  if minMissKm = 0 then 0 else max 0 (3 - minMissKm / 1000000)

/-- Spec formula: size-risk term min(5, maxDiameterM/100). -/
def specSizeRisk (maxDiameterM : ℚ) : ℚ := min 5 (maxDiameterM / 100)

/-- Spec formula: ISS-proximity risk term max(0, 2 − issDistanceKm/2000). -/
def specIssRisk (issDistanceKm : ℚ) : ℚ := max 0 (2 - issDistanceKm / 2000)

/-- Spec formula: launch-imminence risk term max(0, 2 − hoursToLaunch/24). -/
def specLaunchRisk (hoursToLaunch : ℚ) : ℚ := max 0 (2 - hoursToLaunch / 24)

/-- Spec formula: the rounded weighted sum with weights 3, 0.2, 4, 2, 2, 1. -/
def specScore (neo : NeoSummary) (issDistanceKm hoursToLaunch : ℚ) : ℤ :=
  jsRound ((neo.hazardousCount : ℚ) * 3 + (neo.totalCount : ℚ) * 0.2 +
    specMissRisk neo.minMissDistanceKm * 4 +
    specSizeRisk neo.maxEstimatedDiameterMeters * 2 +
    specIssRisk issDistanceKm * 2 +
    specLaunchRisk hoursToLaunch * 1)

/-- Spec classification: HIGH iff score ≥ 18, MEDIUM iff 10 ≤ score < 18,
else LOW. -/
def specLevel (score : ℤ) : ThreatLevel :=
  if 18 ≤ score then .HIGH
  else if 10 ≤ score ∧ score < 18 then .MEDIUM
  else .LOW

/-- Extended-number result of the JS expression
`miss ? Number(miss) : Infinity` applied to a kilometers string (line
357): `nan` for a truthy string whose coercion is NaN, `posInf` for a
missing field, an empty (falsy) string, or a string coercing to
+Infinity, `negInf` for a string coercing to −Infinity, and `fin q` for a
string coercing to the finite number q. -/
inductive JsMiss where
  | nan
  | posInf
  | negInf
  | fin (q : ℚ)
deriving DecidableEq

/-- JS strict comparison on the extended numbers: any comparison with NaN
is false, −Infinity is below everything but itself, +Infinity is below
nothing, finite values compare numerically. -/
def jsLt : JsMiss → JsMiss → Bool
  | .nan, _ => false
  | _, .nan => false
  | .negInf, .negInf => false
  | .negInf, _ => true
  | .posInf, _ => false
  | .fin _, .posInf => true
  | .fin _, .negInf => false
  | .fin q, .fin m => decide (q < m)

/-- Close-approach entry (challenge.three.ts lines 52-57).
`missKilometers` is the extended-number value of
`entry.miss_distance?.kilometers`, i.e. the `miss ? Number(miss) :
Infinity` coercion of line 357 (so a missing `miss_distance` or an empty
string is already `posInf` here). -/
structure CloseApproach where
  close_approach_date : String
  missKilometers : JsMiss
deriving DecidableEq

/-- NasaNeo record (challenge.three.ts lines 43-58).
`estimatedDiameterMaxMeters` models
`neo.estimated_diameter?.meters?.estimated_diameter_max` together with the
`typeof d === "number"` guard of line 348: `none` when the field is absent
or not a number. -/
structure NasaNeo where
  name : String
  is_potentially_hazardous_asteroid : Bool
  estimatedDiameterMaxMeters : Option ℚ
  close_approach_data : List CloseApproach
deriving DecidableEq

/-- NasaNeoFeed (challenge.three.ts lines 39-41): a date-keyed mapping of
object arrays, modelled as an association list in key-iteration order. -/
structure NasaNeoFeed where
  near_earth_objects : List (String × List NasaNeo)
deriving DecidableEq

/-- Flattening loop of summarizeNeos (lines 328-332): concatenate the
per-date arrays in key order. -/
def flattenFeed (feed : NasaNeoFeed) : List NasaNeo :=
  (feed.near_earth_objects.map Prod.snd).flatten

/-- Extended-number miss distance of the first close-approach entry:
`neo.close_approach_data?.[0]?.miss_distance?.kilometers` followed by the
`miss ? Number(miss) : Infinity` coercion (lines 356-357); the optional
chain yielding undefined (no entry) falls into the Infinity branch. -/
def firstMiss (neo : NasaNeo) : JsMiss :=
  match neo.close_approach_data.head? with
  | none => .posInf
  | some ca => ca.missKilometers

/-- Running-minimum update of lines 357-359: update when the candidate is
not NaN and compares strictly below the current minimum, under the JS
extended-number comparison (so a −Infinity candidate wins and sticks). -/
def jsMinStep (acc m : JsMiss) : JsMiss :=
  if ¬ m = JsMiss.nan ∧ jsLt m acc = true then m else acc

/-- Finiteness floor of line 362: `if (!Number.isFinite(min)) min = 0`. -/
def jsFiniteOrZero (m : JsMiss) : ℚ :=
  match m with
  | .fin q => q
  | _ => 0

/-- Finite part of an extended-number value. -/
def finPart (m : JsMiss) : Option ℚ :=
  match m with
  | .fin q => some q
  | _ => none

/-- Accumulator of the summarizeNeos loop (lines 334-341); `minMiss`
starts at `Number.POSITIVE_INFINITY`. -/
structure SummAcc where
  totalCount : ℕ
  hazardousCount : ℕ
  maxD : ℚ
  minMiss : JsMiss
  lt3 : ℕ
  gte3lt4 : ℕ
  gte4 : ℕ
deriving DecidableEq

/-- Loop body of summarizeNeos (lines 343-360), acting on the accumulator. -/
def stepNeo (acc : SummAcc) (neo : NasaNeo) : SummAcc :=
  let totalCount := acc.totalCount + 1
  let hazardousCount :=
    if neo.is_potentially_hazardous_asteroid then acc.hazardousCount + 1
    else acc.hazardousCount
  let maxD :=
    match neo.estimatedDiameterMaxMeters with
    | some d => if acc.maxD < d then d else acc.maxD
    | none => acc.maxD
  let magGuess : ℚ := if neo.is_potentially_hazardous_asteroid then 4.0 else 2.9
  let lt3 := if magGuess < 3 then acc.lt3 + 1 else acc.lt3
  let gte3lt4 :=
    if ¬ magGuess < 3 ∧ magGuess < 4 then acc.gte3lt4 + 1 else acc.gte3lt4
  let gte4 :=
    if ¬ magGuess < 3 ∧ ¬ magGuess < 4 then acc.gte4 + 1 else acc.gte4
  let minMiss := jsMinStep acc.minMiss (firstMiss neo)
  { totalCount, hazardousCount, maxD, minMiss, lt3, gte3lt4, gte4 }

/-- Embedding of summarizeNeos (challenge.three.ts lines 327-372): fold the
loop body over the flattened feed, then replace a still-infinite minimum by
the explicit 0 floor (line 362). -/
def summarizeNeos (feed : NasaNeoFeed) (days : ℚ) : NeoSummary :=
  let all := flattenFeed feed
  let acc := all.foldl stepNeo
    { totalCount := 0, hazardousCount := 0, maxD := 0, minMiss := .posInf,
      lt3 := 0, gte3lt4 := 0, gte4 := 0 }
  { days := days
    totalCount := acc.totalCount
    hazardousCount := acc.hazardousCount
    maxEstimatedDiameterMeters := acc.maxD
    minMissDistanceKm := jsFiniteOrZero acc.minMiss
    lt3 := acc.lt3
    gte3lt4 := acc.gte3lt4
    gte4 := acc.gte4 }

/-- Spec-side list of valid finite first-entry miss distances: entries
that are missing or whose coercion is not a finite number are excluded. -/
def validMisses (feed : NasaNeoFeed) : List ℚ :=
  (flattenFeed feed).filterMap fun n => finPart (firstMiss n)

/-- Spec-side minimum of the claim: the minimum over the valid distances,
defaulting to 0 when no object contributes one. -/
def specMinMiss (feed : NasaNeoFeed) : ℚ :=
  match validMisses feed with
  | [] => 0
  | x :: xs => xs.foldl min x

/-- Amended minimum actually computed by the code: a first-entry string
coercing to −Infinity passes the NaN-only guard and wins the running
minimum, which the line-362 finiteness floor then replaces by 0;
otherwise the minimum of the valid finite distances, 0 when there are
none. -/
def specMinMissJs (feed : NasaNeoFeed) : ℚ :=
  if JsMiss.negInf ∈ (flattenFeed feed).map firstMiss then 0
  else specMinMiss feed

/-- Concrete feed whose single object carries a first close-approach
distance string that coerces to the negative number −1 (for example the
string "-1"): the upstream type only promises a string, and
`Number("-1") = -1` passes the running-minimum guard of line 358. -/
def negMissFeed : NasaNeoFeed :=
  { near_earth_objects :=
      [("2024-01-01",
        [{ name := "(2024 XX)"
           is_potentially_hazardous_asteroid := false
           estimatedDiameterMaxMeters := some 50
           close_approach_data :=
             [{ close_approach_date := "2024-01-01"
                missKilometers := JsMiss.fin (-1) }] }])] }

/-- Concrete benign single-object feed used as a witness input. -/
def benignFeed : NasaNeoFeed :=
  { near_earth_objects :=
      [("2024-01-01",
        [{ name := "(2024 YY)"
           is_potentially_hazardous_asteroid := false
           estimatedDiameterMaxMeters := some 50
           close_approach_data :=
             [{ close_approach_date := "2024-01-01"
                missKilometers := JsMiss.fin 5000000 }] }])] }

/-- Concrete feed with two objects whose first close-approach strings
coerce to −Infinity (for example the string "-Infinity") and to 5: the
−Infinity entry passes the NaN-only guard of line 358, wins the running
minimum, and the finiteness floor of line 362 turns the result into 0 —
while the minimum of the valid finite distances is 5. -/
def negInfFeed : NasaNeoFeed :=
  { near_earth_objects :=
      [("2024-01-01",
        [{ name := "(2024 ZA)"
           is_potentially_hazardous_asteroid := false
           estimatedDiameterMaxMeters := some 50
           close_approach_data :=
             [{ close_approach_date := "2024-01-01"
                missKilometers := JsMiss.negInf }] },
         { name := "(2024 ZB)"
           is_potentially_hazardous_asteroid := false
           estimatedDiameterMaxMeters := some 60
           close_approach_data :=
             [{ close_approach_date := "2024-01-01"
                missKilometers := JsMiss.fin 5 }] }])] }

/-- Resolution of the --days option (parseArgs lines 136 and 141-142).
The JS `Number` coercion of the token is abstracted into its result: the
outer `Option` is presence of the token (`none` means the flag is absent,
in which case the literal "3" is coerced, yielding 3); the inner `Option`
is the coercion result (`none` for `NaN`).  The guard mirrors
`!days || Number.isNaN(days) || days < 1`: a falsy value (0), `NaN`, or a
value below 1 raises the validation error. -/
def resolveDays (daysTok : Option (Option ℚ)) : Except String ℚ :=
  let days : Option ℚ := daysTok.getD (some 3)
  match days with
  | none => Except.error "Missing or invalid argument: --days <number>"
  | some v =>
    if v = 0 ∨ v < 1 then
      Except.error "Missing or invalid argument: --days <number>"
    else Except.ok v

/-- Degrees to radians (challenge.three.ts lines 168-170). -/
noncomputable def toRad (deg : ℝ) : ℝ := deg * Real.pi / 180

/-- JavaScript Math.atan2 on the reals (no signed zeros): the angle of the
point (x, y), in (−π, π]. -/
noncomputable def atan2 (y x : ℝ) : ℝ :=
  if 0 < x then Real.arctan (y / x)
  else if x < 0 then
    (if 0 ≤ y then Real.arctan (y / x) + Real.pi
      else Real.arctan (y / x) - Real.pi)
  else if 0 < y then Real.pi / 2
  else if y < 0 then -(Real.pi / 2)
  else 0

/-- The intermediate `a` of haversineKm (lines 176-181). -/
noncomputable def havA (lat1 lon1 lat2 lon2 : ℝ) : ℝ :=
  Real.sin (toRad (lat2 - lat1) / 2) * Real.sin (toRad (lat2 - lat1) / 2) +
    Real.cos (toRad lat1) * Real.cos (toRad lat2) *
      Real.sin (toRad (lon2 - lon1) / 2) * Real.sin (toRad (lon2 - lon1) / 2)

/-- Embedding of haversineKm (challenge.three.ts lines 172-184) with
Earth radius 6371 km. -/
noncomputable def haversineKm (lat1 lon1 lat2 lon2 : ℝ) : ℝ :=
  6371 * (2 * atan2 (Real.sqrt (havA lat1 lon1 lat2 lon2))
    (Real.sqrt (1 - havA lat1 lon1 lat2 lon2)))

/-- Proleptic Gregorian calendar date (year, month 1-12, day 1-31), the
value carried by the YYYY-MM-DD strings of the script. -/
structure Civil where
  year : ℤ
  month : ℕ
  day : ℕ
deriving DecidableEq

/-- Shifted year of the Gregorian-to-serial conversion: years start in
March so that a leap day is the last day of its shifted year. -/
def civilY (c : Civil) : ℤ := if c.month ≤ 2 then c.year - 1 else c.year

/-- 400-year era of the shifted year (floor division; divisor positive). -/
def civilEra (c : Civil) : ℤ := civilY c / 400

/-- Year of era, in [0, 399]. -/
def civilYoe (c : Civil) : ℤ := civilY c - civilEra c * 400

/-- Shifted month: March is 0, February is 11. -/
def civilMp (c : Civil) : ℤ := (c.month : ℤ) + (if 2 < c.month then -3 else 9)

/-- Day of shifted year, in [0, 365]. -/
def civilDoy (c : Civil) : ℤ := (153 * civilMp c + 2) / 5 + (c.day : ℤ) - 1

/-- First day of shifted year yoe within its era. -/
def yStart (yoe : ℤ) : ℤ := yoe * 365 + yoe / 4 - yoe / 100

/-- Day of era, in [0, 146096]. -/
def civilDoe (c : Civil) : ℤ := yStart (civilYoe c) + civilDoy c

/-- Serial day number of a civil date (days since 1970-01-01): the day
count of the ECMAScript time value used by `new Date`, `setUTCDate` and
`toISOString` in addDays (challenge.three.ts lines 162-166). -/
def daysFromCivil (c : Civil) : ℤ := civilEra c * 146097 + civilDoe c - 719468

/-- Leap-day correction used when inverting the serial conversion. -/
def fCorr (n : ℤ) : ℤ := n - n / 1460 + n / 36524 - n / 146096

/-- Era of a serial day number. -/
def sEra (z : ℤ) : ℤ := (z + 719468) / 146097

/-- Day of era of a serial day number. -/
def sDoe (z : ℤ) : ℤ := z + 719468 - sEra z * 146097

/-- Year of era recovered from a serial day number. -/
def sYoe (z : ℤ) : ℤ := fCorr (sDoe z) / 365

/-- Day of shifted year recovered from a serial day number. -/
def sDoy (z : ℤ) : ℤ := sDoe z - yStart (sYoe z)

/-- Shifted month recovered from a serial day number. -/
def sMp (z : ℤ) : ℤ := (5 * sDoy z + 2) / 153

/-- Day of month recovered from a serial day number. -/
def sDay (z : ℤ) : ℤ := sDoy z - (153 * sMp z + 2) / 5 + 1

/-- Calendar month recovered from a serial day number. -/
def sMonth (z : ℤ) : ℤ := sMp z + (if sMp z < 10 then 3 else -9)

/-- Calendar year recovered from a serial day number. -/
def sYear (z : ℤ) : ℤ := sYoe z + sEra z * 400 + (if sMonth z ≤ 2 then 1 else 0)

/-- Civil date of a serial day number: the inverse conversion performed by
`toISOString` when addDays serializes the shifted Date. -/
def civilFromDays (z : ℤ) : Civil :=
  { year := sYear z, month := (sMonth z).toNat, day := (sDay z).toNat }

/-- Gregorian leap-year rule. -/
def isLeap (y : ℤ) : Bool := (y % 4 == 0 && y % 100 != 0) || y % 400 == 0

/-- Number of days in a month of a given year. -/
def daysInMonth (y : ℤ) (m : ℕ) : ℕ :=
  if m = 2 then (if isLeap y then 29 else 28)
  else if m = 4 ∨ m = 6 ∨ m = 9 ∨ m = 11 then 30 else 31

/-- A civil triple denotes an actual calendar date. -/
def validCivil (c : Civil) : Prop :=
  1 ≤ c.month ∧ c.month ≤ 12 ∧ 1 ≤ c.day ∧ c.day ≤ daysInMonth c.year c.month

instance validCivil_decidable (c : Civil) : Decidable (validCivil c) :=
  inferInstanceAs (Decidable
    (1 ≤ c.month ∧ c.month ≤ 12 ∧ 1 ≤ c.day ∧ c.day ≤ daysInMonth c.year c.month))

/-- Whether shifted year yoe of an era contains a leap day (its February
belongs to calendar year yoe + 1 of the era). -/
def leapB (yoe : ℤ) : ℤ :=
  if (yoe + 1) % 4 = 0 ∧ ((yoe + 1) % 100 ≠ 0 ∨ (yoe + 1) % 400 = 0) then 1
  else 0

/-- Spec-side UTC calendar arithmetic: the successor of a calendar date
(increment the day, rolling over month and year ends). -/
def nextDay (c : Civil) : Civil :=
  if c.day < daysInMonth c.year c.month then { c with day := c.day + 1 }
  else if c.month < 12 then { year := c.year, month := c.month + 1, day := 1 }
  else { year := c.year + 1, month := 1, day := 1 }

/-- Embedding of addDays (challenge.three.ts lines 162-166): parse the
date to its time value, shift by the given number of days via setUTCDate,
serialize back — at the calendar level, a round trip through the serial
day number. -/
def addDays (c : Civil) (days : ℤ) : Civil := civilFromDays (daysFromCivil c + days)

/-- Date-range derivation of main (challenge.three.ts lines 414-416):
neoDays = min(days, 7), startDate = date, endDate = addDays(date,
neoDays − 1). -/
def deriveNeoRange (date : Civil) (days : ℕ) : Civil × Civil :=
  (date, addDays date (min (days : ℤ) 7 - 1))

/-- Raw geocoding candidate (challenge.three.ts lines 6-10); `lat`/`lon`
model the `Number(first.lat)` coercions of lines 241-242 (`none` = NaN). -/
structure NominatimResult where
  lat : Option ℚ
  lon : Option ℚ
  display_name : String
deriving DecidableEq

/-- Resolved location (challenge.three.ts lines 60-65). -/
structure Location where
  city : String
  displayName : String
  latitude : ℚ
  longitude : ℚ
deriving DecidableEq

/-- Raw ISS position payload (lines 12-19); coordinates are `Number`
coercion results of the strings of the payload. -/
structure IssData where
  latitude : Option ℚ
  longitude : Option ℚ
  timestamp : ℤ
deriving DecidableEq

/-- Validated ISS position returned by the adapter (lines 270-274). -/
structure IssNow where
  latitude : ℚ
  longitude : ℚ
  timestamp : ℤ
deriving DecidableEq

/-- Next-launch payload (lines 21-29); `dateUtcMs` models
`Date.parse(nextLaunch.date_utc)` of line 434 (`none` when the string is
unparseable, i.e. the parse is NaN). -/
structure LaunchData where
  name : String
  date_utc : String
  dateUtcMs : Option ℚ
  webcast : Option String
deriving DecidableEq

/-- Astronomy-picture payload (lines 31-37). -/
structure ApodData where
  date : String
  title : String
  media_type : String
  url : String
deriving DecidableEq

/-- Adapter getCityLocation (challenge.three.ts lines 222-252) as a
function of the upstream response; `Except.error ()` on the left models a
transport failure, re-raised by the timed wrapper as a generic failure. -/
def getCityLocation (resp : Except Unit (ℕ × List NominatimResult))
    (city : String) : Except String Location :=
  match resp with
  | .error _ => .error "Nominatim search failed"
  | .ok (status, results) =>
    if 400 ≤ status then .error ("Nominatim HTTP " ++ toString status)
    else
      match results.head? with
      | none => .error ("City not found: " ++ city)
      | some first =>
        match first.lat, first.lon with
        | some la, some lo =>
          .ok { city := city, displayName := first.display_name,
                latitude := la, longitude := lo }
        | _, _ => .error ("Invalid coordinates for: " ++ city)

/-- Adapter getIssNow (lines 254-275). -/
def getIssNow (resp : Except Unit (ℕ × IssData)) : Except String IssNow :=
  match resp with
  | .error _ => .error "ISS now failed"
  | .ok (status, data) =>
    if 400 ≤ status then .error ("ISS HTTP " ++ toString status)
    else
      match data.latitude, data.longitude with
      | some la, some lo =>
        .ok { latitude := la, longitude := lo, timestamp := data.timestamp }
      | _, _ => .error "Invalid ISS coordinates"

/-- Adapter getSpaceXNext (lines 277-288). -/
def getSpaceXNext (resp : Except Unit (ℕ × LaunchData)) :
    Except String LaunchData :=
  match resp with
  | .error _ => .error "SpaceX next failed"
  | .ok (status, data) =>
    if 400 ≤ status then .error ("SpaceX HTTP " ++ toString status)
    else .ok data

/-- Adapter getApod (lines 290-306). -/
def getApod (resp : Except Unit (ℕ × ApodData)) : Except String ApodData :=
  match resp with
  | .error _ => .error "NASA APOD failed"
  | .ok (status, data) =>
    if 400 ≤ status then .error ("APOD HTTP " ++ toString status)
    else .ok data

/-- Adapter getNeoFeed (lines 308-325). -/
def getNeoFeed (resp : Except Unit (ℕ × NasaNeoFeed)) :
    Except String NasaNeoFeed :=
  match resp with
  | .error _ => .error "NASA NEO feed failed"
  | .ok (status, data) =>
    if 400 ≤ status then .error ("NEO HTTP " ++ toString status)
    else .ok data

/-- Upstream oracle: one response per adapter plus the outcome of the
final `fs.writeFile`. -/
structure Upstream where
  nominatim : Except Unit (ℕ × List NominatimResult)
  issNow : Except Unit (ℕ × IssData)
  spacexNext : Except Unit (ℕ × LaunchData)
  apod : Except Unit (ℕ × ApodData)
  neoFeed : Except Unit (ℕ × NasaNeoFeed)
  writeOk : Bool

/-- Validated CLI arguments as consumed by main. -/
structure RunArgs where
  city : String
  days : ℚ
  date : String

/-- Time-to-launch of main (lines 434-437): the hours between the parsed
launch timestamp and now, or 0 when the timestamp is unparseable. -/
def computeHoursToLaunch (launchMs : Option ℚ) (now : ℚ) : ℚ :=
  match launchMs with
  | some t => (t - now) / 3600000
  | none => 0

/-- Briefing record (challenge.three.ts lines 80-112 and 442-466). -/
structure BriefingOut where
  city : String
  days : ℚ
  date : String
  location : Location
  issLatitude : ℚ
  issLongitude : ℚ
  issDistanceKm : ℚ
  issTimestamp : ℤ
  nextLaunchName : String
  nextLaunchDateUtc : String
  hoursToLaunch : ℚ
  webcast : Option String
  apod : ApodData
  neo : NeoSummary
  threatScore : ℤ
  threatLevel : ThreatLevel

/-- Observable outcome of one run: adapters invoked in program order,
whether briefing.json was persisted, the process exit code, and the
persisted briefing when there is one. -/
structure RunResult where
  invoked : List String
  fileWritten : Bool
  exitCode : ℕ
  briefing : Option BriefingOut

/-- Orchestration of main (challenge.three.ts lines 401-495): the city
lookup is awaited first; only when it succeeds are the four remaining
adapters started (Promise.all); any failure aborts with exit code 1 and no
write; on the success path the derived metrics are computed and the
briefing is persisted, a write failure again exiting 1.  The float
haversine evaluation is the opaque collaborator `dist`. -/
def runMain (u : Upstream) (args : RunArgs) (now : ℚ)
    (dist : ℚ → ℚ → ℚ → ℚ → ℚ) : RunResult :=
  match getCityLocation u.nominatim args.city with
  | .error _ =>
    { invoked := ["Nominatim search"], fileWritten := false, exitCode := 1,
      briefing := none }
  | .ok location =>
    match getIssNow u.issNow, getSpaceXNext u.spacexNext, getApod u.apod,
        getNeoFeed u.neoFeed with
    | .ok issNow, .ok nextLaunch, .ok apodData, .ok neoFeed =>
      let issDistanceKm :=
        dist location.latitude location.longitude issNow.latitude issNow.longitude
      let hoursToLaunch := computeHoursToLaunch nextLaunch.dateUtcMs now
      let neoDays := min args.days 7
      let neoSummary := summarizeNeos neoFeed neoDays
      let threat := computeThreat neoSummary issDistanceKm hoursToLaunch
      let briefing : BriefingOut :=
        { city := args.city, days := args.days, date := args.date
          location := location
          issLatitude := issNow.latitude, issLongitude := issNow.longitude
          issDistanceKm := issDistanceKm, issTimestamp := issNow.timestamp
          nextLaunchName := nextLaunch.name
          nextLaunchDateUtc := nextLaunch.date_utc
          hoursToLaunch := hoursToLaunch
          webcast := nextLaunch.webcast
          apod := apodData
          neo := neoSummary
          threatScore := threat.1
          threatLevel := threat.2 }
      if u.writeOk then
        { invoked := ["Nominatim search", "ISS now", "SpaceX next",
            "NASA APOD", "NASA NEO feed"],
          fileWritten := true, exitCode := 0, briefing := some briefing }
      else
        { invoked := ["Nominatim search", "ISS now", "SpaceX next",
            "NASA APOD", "NASA NEO feed"],
          fileWritten := false, exitCode := 1, briefing := none }
    | _, _, _, _ =>
      { invoked := ["Nominatim search", "ISS now", "SpaceX next",
          "NASA APOD", "NASA NEO feed"],
        fileWritten := false, exitCode := 1, briefing := none }

/-- Some adapter fails on this oracle. -/
def adapterFailure (u : Upstream) (args : RunArgs) : Prop :=
  (∃ e, getCityLocation u.nominatim args.city = .error e) ∨
  (∃ e, getIssNow u.issNow = .error e) ∨
  (∃ e, getSpaceXNext u.spacexNext = .error e) ∨
  (∃ e, getApod u.apod = .error e) ∨
  (∃ e, getNeoFeed u.neoFeed = .error e)

/-- Concrete sample arguments for the witnesses. -/
def sampleArgs : RunArgs := { city := "Zurich", days := 3, date := "2024-01-01" }

/-- Degenerate distance collaborator for the witnesses. -/
def zeroDist : ℚ → ℚ → ℚ → ℚ → ℚ := fun _ _ _ _ => 0

/-- Oracle on which geocoding succeeds with zero candidates and the other
adapters would succeed. -/
def geoEmptyUpstream : Upstream :=
  { nominatim := Except.ok (200, [])
    issNow := Except.ok (200,
      { latitude := some 10, longitude := some 20, timestamp := 1700000000 })
    spacexNext := Except.ok (200,
      { name := "Demo", date_utc := "2024-01-01T00:00:00.000Z",
        dateUtcMs := some 1704067200000, webcast := none })
    apod := Except.ok (200,
      { date := "2024-01-01", title := "T", media_type := "image", url := "u" })
    neoFeed := Except.ok (200, { near_earth_objects := [] })
    writeOk := true }

/-- Oracle on which all five adapters succeed but the launch date string
is unparseable (its parse is NaN). -/
def badDateUpstream : Upstream :=
  { nominatim := Except.ok (200,
      [{ lat := some 47, lon := some 8, display_name := "Zurich, Switzerland" }])
    issNow := Except.ok (200,
      { latitude := some 10, longitude := some 20, timestamp := 1700000000 })
    spacexNext := Except.ok (200,
      { name := "Demo", date_utc := "not-a-date", dateUtcMs := none,
        webcast := none })
    apod := Except.ok (200,
      { date := "2024-01-01", title := "T", media_type := "image", url := "u" })
    neoFeed := Except.ok (200, { near_earth_objects := [] })
    writeOk := true }

/-- Location resolved from badDateUpstream. -/
def badDateLoc : Location :=
  { city := "Zurich", displayName := "Zurich, Switzerland",
    latitude := 47, longitude := 8 }

/-- ISS position resolved from badDateUpstream. -/
def badDateIss : IssNow :=
  { latitude := 10, longitude := 20, timestamp := 1700000000 }

/-- Launch record resolved from badDateUpstream. -/
def badDateLaunch : LaunchData :=
  { name := "Demo", date_utc := "not-a-date", dateUtcMs := none, webcast := none }

/-- Picture record resolved from badDateUpstream. -/
def badDateApod : ApodData :=
  { date := "2024-01-01", title := "T", media_type := "image", url := "u" }

end Briefing

namespace Briefing

theorem jsRound_mono {x y : ℚ} (h : x ≤ y) : jsRound x ≤ jsRound y :=
  Int.floor_le_floor (by linarith)

theorem level_bridge (s : ℤ) :
    (if s ≥ 18 then ThreatLevel.HIGH
      else if s ≥ 10 then ThreatLevel.MEDIUM else ThreatLevel.LOW) =
      specLevel s := by
  unfold specLevel
  by_cases h18 : 18 ≤ s
  · simp [h18, ge_iff_le]
  · by_cases h10 : 10 ≤ s
    · have hlt : s < 18 := by omega
      simp [h18, h10, hlt, ge_iff_le]
    · simp [h18, h10, ge_iff_le]

theorem jsLt_negInf_right (m : JsMiss) : jsLt m JsMiss.negInf = false := by
  cases m <;> rfl

theorem jsMinStep_negInf_acc (m : JsMiss) :
    jsMinStep JsMiss.negInf m = JsMiss.negInf := by
  unfold jsMinStep
  rw [jsLt_negInf_right]
  simp

theorem jsMinStep_ne_nan (a m : JsMiss) (ha : ¬ a = JsMiss.nan) :
    ¬ jsMinStep a m = JsMiss.nan := by
  unfold jsMinStep
  split_ifs with h
  · exact h.1
  · exact ha

theorem jsMinStep_to_negInf (a : JsMiss) (ha : ¬ a = JsMiss.nan) :
    jsMinStep a JsMiss.negInf = JsMiss.negInf := by
  unfold jsMinStep
  cases a with
  | nan => exact absurd rfl ha
  | negInf => simp [jsLt]
  | posInf => simp [jsLt]
  | fin q => simp [jsLt]

theorem foldl_jsMinStep_negInf_absorb (ms : List JsMiss) :
    ms.foldl jsMinStep JsMiss.negInf = JsMiss.negInf := by
  induction ms with
  | nil => rfl
  | cons m ms ih => rw [List.foldl_cons, jsMinStep_negInf_acc, ih]

/-- Once a −Infinity value occurs among the candidates, the running
minimum ends at −Infinity. -/
theorem foldl_jsMinStep_reach_negInf (ms : List JsMiss) (a : JsMiss)
    (ha : ¬ a = JsMiss.nan) (h : JsMiss.negInf ∈ ms) :
    ms.foldl jsMinStep a = JsMiss.negInf := by
  induction ms generalizing a with
  | nil => cases h
  | cons m ms ih =>
    rw [List.foldl_cons]
    rcases List.mem_cons.mp h with heq | hmem
    · rw [← heq, jsMinStep_to_negInf a ha, foldl_jsMinStep_negInf_absorb]
    · exact ih (jsMinStep a m) (jsMinStep_ne_nan a m ha) hmem

/-- Without −Infinity candidates, the running minimum started at a finite
value is the minimum of that value and the finite candidates. -/
theorem foldl_jsMinStep_fin (ms : List JsMiss) (x : ℚ)
    (h : JsMiss.negInf ∉ ms) :
    ms.foldl jsMinStep (JsMiss.fin x) =
      JsMiss.fin ((ms.filterMap finPart).foldl min x) := by
  induction ms generalizing x with
  | nil => rfl
  | cons m ms ih =>
    have hms : JsMiss.negInf ∉ ms := fun hc => h (List.mem_cons_of_mem m hc)
    rw [List.foldl_cons, List.filterMap_cons]
    cases m with
    | nan =>
      have hstep : jsMinStep (JsMiss.fin x) JsMiss.nan = JsMiss.fin x := by
        unfold jsMinStep
        simp
      rw [hstep]
      simpa [finPart] using ih x hms
    | posInf =>
      have hstep : jsMinStep (JsMiss.fin x) JsMiss.posInf = JsMiss.fin x := by
        unfold jsMinStep
        simp [jsLt]
      rw [hstep]
      simpa [finPart] using ih x hms
    | negInf => exact absurd (List.mem_cons_self _ _) h
    | fin q =>
      have hstep : jsMinStep (JsMiss.fin x) (JsMiss.fin q) =
          JsMiss.fin (min x q) := by
        unfold jsMinStep
        simp only [jsLt]
        rcases lt_or_ge q x with hlt | hge
        · rw [if_pos ⟨by simp, by simp [hlt]⟩, min_eq_right (le_of_lt hlt)]
        · rw [if_neg, min_eq_left hge]
          rintro ⟨-, hc⟩
          simp only [decide_eq_true_eq] at hc
          linarith
      rw [hstep]
      simp only [finPart]
      rw [ih (min x q) hms]
      rw [List.foldl_cons]

/-- Without −Infinity candidates, the running minimum started at
+Infinity is the minimum of the finite candidates, staying +Infinity when
there are none. -/
theorem foldl_jsMinStep_posInf (ms : List JsMiss) (h : JsMiss.negInf ∉ ms) :
    ms.foldl jsMinStep JsMiss.posInf =
      (match ms.filterMap finPart with
        | [] => JsMiss.posInf
        | x :: xs => JsMiss.fin (xs.foldl min x)) := by
  induction ms with
  | nil => rfl
  | cons m ms ih =>
    have hms : JsMiss.negInf ∉ ms := fun hc => h (List.mem_cons_of_mem m hc)
    rw [List.foldl_cons, List.filterMap_cons]
    cases m with
    | nan =>
      have hstep : jsMinStep JsMiss.posInf JsMiss.nan = JsMiss.posInf := by
        unfold jsMinStep
        simp
      rw [hstep]
      simpa [finPart] using ih hms
    | posInf =>
      have hstep : jsMinStep JsMiss.posInf JsMiss.posInf = JsMiss.posInf := by
        unfold jsMinStep
        simp [jsLt]
      rw [hstep]
      simpa [finPart] using ih hms
    | negInf => exact absurd (List.mem_cons_self _ _) h
    | fin q =>
      have hstep : jsMinStep JsMiss.posInf (JsMiss.fin q) = JsMiss.fin q := by
        unfold jsMinStep
        simp [jsLt]
      rw [hstep, foldl_jsMinStep_fin ms q hms]
      simp only [finPart]

/-- Main loop invariant: the fold over a list of objects adds, component by
component, the counts and folds the valid miss distances through `omin`. -/
theorem foldl_stepNeo (l : List NasaNeo) (a : SummAcc) :
    (l.foldl stepNeo a).totalCount = a.totalCount + l.length ∧
    (l.foldl stepNeo a).hazardousCount =
      a.hazardousCount +
        l.countP (fun n => n.is_potentially_hazardous_asteroid) ∧
    (l.foldl stepNeo a).lt3 =
      a.lt3 + l.countP (fun n => !n.is_potentially_hazardous_asteroid) ∧
    (l.foldl stepNeo a).gte3lt4 = a.gte3lt4 ∧
    (l.foldl stepNeo a).gte4 =
      a.gte4 + l.countP (fun n => n.is_potentially_hazardous_asteroid) ∧
    (l.foldl stepNeo a).minMiss = (l.map firstMiss).foldl jsMinStep a.minMiss := by
  induction l generalizing a with
  | nil => simp
  | cons neo rest ih =>
    obtain ⟨h1, h2, h3, h4, h5, h6⟩ := ih (stepNeo a neo)
    have step1 : (stepNeo a neo).totalCount = a.totalCount + 1 := rfl
    have step2 : (stepNeo a neo).hazardousCount =
        (if neo.is_potentially_hazardous_asteroid then a.hazardousCount + 1
          else a.hazardousCount) := rfl
    have step6 : (stepNeo a neo).minMiss =
        jsMinStep a.minMiss (firstMiss neo) := rfl
    refine ⟨?_, ?_, ?_, ?_, ?_, ?_⟩
    · rw [List.foldl_cons, h1, step1]
      simp [List.length_cons]
      omega
    · rw [List.foldl_cons, h2, step2]
      by_cases hh : neo.is_potentially_hazardous_asteroid
      · simp [hh, List.countP_cons]
        omega
      · simp [hh, List.countP_cons]
    · rw [List.foldl_cons, h3]
      by_cases hh : neo.is_potentially_hazardous_asteroid
      · have : (stepNeo a neo).lt3 = a.lt3 := by
          unfold stepNeo
          simp [hh]
          norm_num
        rw [this]
        simp [List.countP_cons, hh]
      · have : (stepNeo a neo).lt3 = a.lt3 + 1 := by
          unfold stepNeo
          simp [hh]
          norm_num
        rw [this]
        simp [List.countP_cons, hh]
        omega
    · rw [List.foldl_cons, h4]
      by_cases hh : neo.is_potentially_hazardous_asteroid
      · have : (stepNeo a neo).gte3lt4 = a.gte3lt4 := by
          unfold stepNeo
          simp [hh]
          norm_num
        rw [this]
      · have : (stepNeo a neo).gte3lt4 = a.gte3lt4 := by
          unfold stepNeo
          simp [hh]
          norm_num
        rw [this]
    · rw [List.foldl_cons, h5]
      by_cases hh : neo.is_potentially_hazardous_asteroid
      · have : (stepNeo a neo).gte4 = a.gte4 + 1 := by
          unfold stepNeo
          simp [hh]
          norm_num
        rw [this]
        simp [List.countP_cons, hh]
        omega
      · have : (stepNeo a neo).gte4 = a.gte4 := by
          unfold stepNeo
          simp [hh]
          norm_num
        rw [this]
        simp [List.countP_cons, hh]
    · rw [List.foldl_cons, h6, step6, List.map_cons, List.foldl_cons]

/-- Characterization of summarizeNeos: totals, hazardous count, the three
buckets, and the minimum-miss value. -/
theorem summarizeNeos_spec (feed : NasaNeoFeed) (days : ℚ) :
    (summarizeNeos feed days).totalCount = (flattenFeed feed).length ∧
    (summarizeNeos feed days).hazardousCount =
      (flattenFeed feed).countP (fun n => n.is_potentially_hazardous_asteroid) ∧
    (summarizeNeos feed days).lt3 =
      (flattenFeed feed).countP (fun n => !n.is_potentially_hazardous_asteroid) ∧
    (summarizeNeos feed days).gte3lt4 = 0 ∧
    (summarizeNeos feed days).gte4 =
      (flattenFeed feed).countP (fun n => n.is_potentially_hazardous_asteroid) ∧
    (summarizeNeos feed days).minMissDistanceKm = specMinMissJs feed := by
  obtain ⟨h1, h2, h3, h4, h5, h6⟩ := foldl_stepNeo (flattenFeed feed)
    { totalCount := 0, hazardousCount := 0, maxD := 0, minMiss := .posInf,
      lt3 := 0, gte3lt4 := 0, gte4 := 0 }
  unfold summarizeNeos
  refine ⟨by simpa using h1, by simpa using h2, by simpa using h3,
    by simpa using h4, by simpa using h5, ?_⟩
  simp only []
  rw [h6]
  unfold specMinMissJs
  by_cases hneg : JsMiss.negInf ∈ (flattenFeed feed).map firstMiss
  · rw [if_pos hneg, foldl_jsMinStep_reach_negInf _ _ (by simp) hneg]
    rfl
  · rw [if_neg hneg, foldl_jsMinStep_posInf _ hneg]
    have hmap : ((flattenFeed feed).map firstMiss).filterMap finPart =
        (flattenFeed feed).filterMap (fun n => finPart (firstMiss n)) := by
      rw [List.filterMap_map]
      rfl
    unfold specMinMiss validMisses
    rw [hmap]
    cases hv : (flattenFeed feed).filterMap (fun n => finPart (firstMiss n)) with
    | nil => rfl
    | cons x xs => rfl

theorem countP_not_add (l : List NasaNeo) :
    l.countP (fun n => !n.is_potentially_hazardous_asteroid) +
      l.countP (fun n => n.is_potentially_hazardous_asteroid) = l.length := by
  induction l with
  | nil => rfl
  | cons x xs ih =>
    by_cases hx : x.is_potentially_hazardous_asteroid
    · simp [List.countP_cons, hx]
      omega
    · simp [List.countP_cons, hx]
      omega

theorem foldl_min_nonneg (xs : List ℚ) (x : ℚ) (hx : 0 ≤ x)
    (h : ∀ q ∈ xs, 0 ≤ q) : 0 ≤ xs.foldl min x := by
  induction xs generalizing x with
  | nil => exact hx
  | cons y ys ih =>
    refine ih (min x y) (le_min hx (h y (List.mem_cons_self y ys))) ?_
    exact fun q hq => h q (List.mem_cons_of_mem y hq)

theorem havA_symm (lat1 lon1 lat2 lon2 : ℝ) :
    havA lat1 lon1 lat2 lon2 = havA lat2 lon2 lat1 lon1 := by
  unfold havA toRad
  have k : ∀ a b : ℝ, Real.sin ((a - b) * Real.pi / 180 / 2) =
      -Real.sin ((b - a) * Real.pi / 180 / 2) := by
    intro a b
    rw [show (a - b) * Real.pi / 180 / 2 = -((b - a) * Real.pi / 180 / 2) by ring,
      Real.sin_neg]
  rw [k lat2 lat1, k lon2 lon1]
  ring

theorem havA_self (lat lon : ℝ) : havA lat lon lat lon = 0 := by
  unfold havA toRad
  simp

theorem fCorr_step (n : ℤ) : fCorr n ≤ fCorr (n + 1) := by
  unfold fCorr
  omega

theorem fCorr_mono (m n : ℤ) (hmn : m ≤ n) : fCorr m ≤ fCorr n := by
  obtain ⟨k, rfl⟩ : ∃ k : ℕ, n = m + k := ⟨(n - m).toNat, by omega⟩
  clear hmn
  induction k with
  | zero => simp
  | succ k ih =>
    have hstep : fCorr (m + k) ≤ fCorr (m + k + 1) := fCorr_step (m + k)
    have hcast : m + ((k + 1 : ℕ) : ℤ) = m + k + 1 := by push_cast; ring
    rw [hcast]
    exact le_trans ih hstep

set_option maxHeartbeats 1000000 in
set_option maxRecDepth 4000 in
theorem yoeLow : ∀ y : Fin 400, 365 * (y.val : ℤ) ≤ fCorr (yStart (y.val : ℤ)) := by
  decide

set_option maxHeartbeats 1000000 in
set_option maxRecDepth 4000 in
theorem yoeHigh : ∀ y : Fin 400,
    fCorr (yStart (y.val : ℤ) + 364 + leapB (y.val : ℤ)) ≤
      365 * (y.val : ℤ) + 364 := by
  decide

theorem yoe_recover (yoe doy : ℤ) (h0 : 0 ≤ yoe) (h399 : yoe ≤ 399)
    (hd0 : 0 ≤ doy) (hdB : doy ≤ 364 + leapB yoe) :
    fCorr (yStart yoe + doy) / 365 = yoe := by
  have hfin : ((⟨yoe.toNat, by omega⟩ : Fin 400).val : ℤ) = yoe := by
    simp [Int.toNat_of_nonneg h0]
  have hlo := yoeLow ⟨yoe.toNat, by omega⟩
  have hhi := yoeHigh ⟨yoe.toNat, by omega⟩
  rw [hfin] at hlo hhi
  have hm1 : fCorr (yStart yoe) ≤ fCorr (yStart yoe + doy) :=
    fCorr_mono _ _ (by omega)
  have hm2 : fCorr (yStart yoe + doy) ≤ fCorr (yStart yoe + 364 + leapB yoe) :=
    fCorr_mono _ _ (by omega)
  have hsand1 : 365 * yoe ≤ fCorr (yStart yoe + doy) := le_trans hlo hm1
  have hsand2 : fCorr (yStart yoe + doy) ≤ 365 * yoe + 364 := le_trans hm2 hhi
  omega

set_option maxHeartbeats 2000000 in
/-- Round trip: converting a valid civil date to its serial day number and
back yields the same date. -/
theorem cfd_dfc (c : Civil) (h : validCivil c) :
    civilFromDays (daysFromCivil c) = c := by
  obtain ⟨Y, M, D⟩ := c
  obtain ⟨h1, h2, h3, h4⟩ := h
  simp only [daysInMonth, isLeap, Bool.or_eq_true, Bool.and_eq_true, beq_iff_eq,
    bne_iff_ne] at h4
  simp only at h1 h2 h3 h4
  have f1 : civilY ⟨Y, M, D⟩ = if M ≤ 2 then Y - 1 else Y := rfl
  have f2 : civilEra ⟨Y, M, D⟩ = civilY ⟨Y, M, D⟩ / 400 := rfl
  have f3 : civilYoe ⟨Y, M, D⟩ = civilY ⟨Y, M, D⟩ - civilEra ⟨Y, M, D⟩ * 400 := rfl
  have f4 : civilMp ⟨Y, M, D⟩ = (M : ℤ) + (if 2 < M then -3 else 9) := rfl
  have f5 : civilDoy ⟨Y, M, D⟩ =
      (153 * civilMp ⟨Y, M, D⟩ + 2) / 5 + (D : ℤ) - 1 := rfl
  have f6 : civilDoe ⟨Y, M, D⟩ =
      civilYoe ⟨Y, M, D⟩ * 365 + civilYoe ⟨Y, M, D⟩ / 4 -
        civilYoe ⟨Y, M, D⟩ / 100 + civilDoy ⟨Y, M, D⟩ := by
    show yStart _ + _ = _
    unfold yStart
    ring
  have f7 : daysFromCivil ⟨Y, M, D⟩ =
      civilEra ⟨Y, M, D⟩ * 146097 + civilDoe ⟨Y, M, D⟩ - 719468 := rfl
  have hyoeB : 0 ≤ civilYoe ⟨Y, M, D⟩ ∧ civilYoe ⟨Y, M, D⟩ ≤ 399 := by
    rw [f3, f2]
    omega
  have hBrange : 0 ≤ leapB (civilYoe ⟨Y, M, D⟩) ∧
      leapB (civilYoe ⟨Y, M, D⟩) ≤ 1 := by
    unfold leapB
    split_ifs <;> omega
  have hdoyB : 0 ≤ civilDoy ⟨Y, M, D⟩ ∧
      civilDoy ⟨Y, M, D⟩ ≤ 364 + leapB (civilYoe ⟨Y, M, D⟩) := by
    rw [f5, f4]
    unfold leapB
    rw [f3, f2, f1]
    split_ifs at h4 ⊢ <;> omega
  generalize hgen : daysFromCivil ⟨Y, M, D⟩ = Z at f7
  have e1 : sEra Z = (Z + 719468) / 146097 := rfl
  have e2 : sDoe Z = Z + 719468 - sEra Z * 146097 := rfl
  have hdoeB : 0 ≤ civilDoe ⟨Y, M, D⟩ ∧ civilDoe ⟨Y, M, D⟩ ≤ 146096 := by
    omega
  have hera1 : sEra Z = civilEra ⟨Y, M, D⟩ := by
    omega
  have hera2 : sDoe Z = civilDoe ⟨Y, M, D⟩ := by
    omega
  have e3 : sYoe Z = fCorr (sDoe Z) / 365 := rfl
  have hdoe2 : civilDoe ⟨Y, M, D⟩ =
      yStart (civilYoe ⟨Y, M, D⟩) + civilDoy ⟨Y, M, D⟩ := rfl
  have hrec := yoe_recover (civilYoe ⟨Y, M, D⟩) (civilDoy ⟨Y, M, D⟩)
    hyoeB.1 hyoeB.2 hdoyB.1 hdoyB.2
  have hyoe : sYoe Z = civilYoe ⟨Y, M, D⟩ := by
    rw [e3, hera2, hdoe2, hrec]
  have e4 : sDoy Z = sDoe Z - yStart (sYoe Z) := rfl
  have hdoy : sDoy Z = civilDoy ⟨Y, M, D⟩ := by
    rw [e4, hera2, hdoe2, hyoe]
    ring
  have e5 : sMp Z = (5 * sDoy Z + 2) / 153 := rfl
  have e6 : sDay Z = sDoy Z - (153 * sMp Z + 2) / 5 + 1 := rfl
  have e7 : sMonth Z = sMp Z + (if sMp Z < 10 then 3 else -9) := rfl
  have e8 : sYear Z = sYoe Z + sEra Z * 400 + (if sMonth Z ≤ 2 then 1 else 0) := rfl
  have g : civilFromDays Z = ⟨sYear Z, (sMonth Z).toNat, (sDay Z).toNat⟩ := rfl
  rw [g]
  simp only [Civil.mk.injEq]
  clear e1 e2 e3 e4 hdoeB hrec hdoe2 hera2 hBrange hgen f7 f6
  interval_cases M <;>
    split_ifs at f1 f4 e7 e8 h4 <;>
      omega

/-- Equation pack for daysFromCivil at an arbitrary date, exposing all
intermediate quantities of the conversion. -/
theorem dfc_eqs (Y : ℤ) (M D : ℕ) : ∃ y era yoe mp doy,
    y = (if M ≤ 2 then Y - 1 else Y) ∧ era = y / 400 ∧ yoe = y - era * 400 ∧
    mp = (M : ℤ) + (if 2 < M then -3 else 9) ∧
    doy = (153 * mp + 2) / 5 + (D : ℤ) - 1 ∧
    daysFromCivil ⟨Y, M, D⟩ =
      era * 146097 + (yoe * 365 + yoe / 4 - yoe / 100 + doy) - 719468 :=
  ⟨_, _, _, _, _, rfl, rfl, rfl, rfl, rfl, rfl⟩

set_option maxHeartbeats 2000000 in
/-- The serial day number of the calendar successor is one more. -/
theorem dfc_nextDay (c : Civil) (h : validCivil c) :
    daysFromCivil (nextDay c) = daysFromCivil c + 1 := by
  obtain ⟨Y, M, D⟩ := c
  obtain ⟨h1, h2, h3, h4⟩ := h
  simp only [daysInMonth, isLeap, Bool.or_eq_true, Bool.and_eq_true, beq_iff_eq,
    bne_iff_ne] at h4
  simp only at h1 h2 h3 h4
  obtain ⟨y1, era1, yoe1, mp1, doy1, hy1, he1, hyo1, hm1, hd1, hf1⟩ := dfc_eqs Y M D
  unfold nextDay
  split_ifs with hlt hm12
  · obtain ⟨y2, era2, yoe2, mp2, doy2, hy2, he2, hyo2, hm2, hd2, hf2⟩ :=
      dfc_eqs Y M (D + 1)
    simp only [daysInMonth, isLeap, Bool.or_eq_true, Bool.and_eq_true, beq_iff_eq,
      bne_iff_ne] at hlt
    simp only at hlt hf1 hf2 ⊢
    split_ifs at h4 hlt hy1 hy2 hm1 hm2 <;> omega
  · obtain ⟨y2, era2, yoe2, mp2, doy2, hy2, he2, hyo2, hm2, hd2, hf2⟩ :=
      dfc_eqs Y (M + 1) 1
    simp only [daysInMonth, isLeap, Bool.or_eq_true, Bool.and_eq_true, beq_iff_eq,
      bne_iff_ne] at hlt
    simp only at hlt hf1 hf2 ⊢
    interval_cases M <;>
      split_ifs at h4 hlt hy1 hy2 hm1 hm2 <;> omega
  · obtain ⟨y2, era2, yoe2, mp2, doy2, hy2, he2, hyo2, hm2, hd2, hf2⟩ :=
      dfc_eqs (Y + 1) 1 1
    simp only [daysInMonth, isLeap, Bool.or_eq_true, Bool.and_eq_true, beq_iff_eq,
      bne_iff_ne] at hlt
    simp only at hlt hm12 hf1 hf2 ⊢
    have hM : M = 12 := by omega
    subst hM
    split_ifs at h4 hlt hy1 hy2 hm1 hm2 <;> omega

theorem daysInMonth_pos (y : ℤ) (m : ℕ) : 1 ≤ daysInMonth y m := by
  unfold daysInMonth
  split_ifs <;> omega

/-- The calendar successor of a valid date is valid. -/
theorem nextDay_valid (c : Civil) (h : validCivil c) : validCivil (nextDay c) := by
  obtain ⟨Y, M, D⟩ := c
  obtain ⟨h1, h2, h3, h4⟩ := h
  simp only at h1 h2 h3 h4
  unfold nextDay
  split_ifs with hlt hm12
  · unfold validCivil
    simp only at hlt ⊢
    exact ⟨h1, h2, by omega, by omega⟩
  · unfold validCivil
    simp only at hlt hm12 ⊢
    have hp := daysInMonth_pos Y (M + 1)
    exact ⟨by omega, by omega, le_refl 1, hp⟩
  · unfold validCivil
    simp only at hlt hm12 ⊢
    have hp := daysInMonth_pos (Y + 1) 1
    exact ⟨by omega, by omega, le_refl 1, hp⟩

theorem iterate_nextDay_facts (c : Civil) (h : validCivil c) (n : ℕ) :
    validCivil (nextDay^[n] c) ∧
      daysFromCivil (nextDay^[n] c) = daysFromCivil c + n := by
  induction n with
  | zero =>
    rw [Function.iterate_zero_apply]
    exact ⟨h, by simp⟩
  | succ n ih =>
    rw [Function.iterate_succ_apply']
    refine ⟨nextDay_valid _ ih.1, ?_⟩
    rw [dfc_nextDay _ ih.1, ih.2]
    push_cast
    ring

/-- Adding n days through the serial round trip is n calendar successor
steps. -/
theorem addDays_iterate (c : Civil) (h : validCivil c) (n : ℕ) :
    addDays c (n : ℤ) = nextDay^[n] c := by
  obtain ⟨hv, hs⟩ := iterate_nextDay_facts c h n
  unfold addDays
  rw [← hs]
  exact cfd_dfc _ hv

end Briefing

/-- C1: for every NeoSummary, ISS distance and hours-to-launch,
computeThreat returns exactly the rounded weighted sum of the spec
(weights 3, 0.2, 4, 2, 2, 1 over the two counts and the four risk terms,
with the stated miss/size/ISS/launch risk formulas) and classifies it HIGH
iff score ≥ 18, MEDIUM iff 10 ≤ score < 18, else LOW. -/
theorem C1_computeThreat_matches_spec
    (neo : Briefing.NeoSummary) (issDistanceKm hoursToLaunch : ℚ) :
    Briefing.computeThreat neo issDistanceKm hoursToLaunch =
      (Briefing.specScore neo issDistanceKm hoursToLaunch,
       Briefing.specLevel (Briefing.specScore neo issDistanceKm hoursToLaunch)) := by
  have h2 : (Briefing.computeThreat neo issDistanceKm hoursToLaunch).2 =
      (if Briefing.specScore neo issDistanceKm hoursToLaunch ≥ 18 then
        Briefing.ThreatLevel.HIGH
      else if Briefing.specScore neo issDistanceKm hoursToLaunch ≥ 10 then
        Briefing.ThreatLevel.MEDIUM
      else Briefing.ThreatLevel.LOW) := rfl
  rw [Prod.ext_iff]
  exact ⟨rfl, h2.trans (Briefing.level_bridge _)⟩

/-- C2 as stated is false on the code: the feed type only promises a
string for the miss distance, and a first close-approach distance string
coercing to −1 passes the guard of line 358, so the summary of negMissFeed
violates minMissDistanceKm ≥ 0 (the conjunction of the three claimed
invariants fails at this concrete feed). -/
theorem C2_counterexample_negative_miss :
    ¬ ((Briefing.summarizeNeos Briefing.negMissFeed 1).hazardousCount ≤
         (Briefing.summarizeNeos Briefing.negMissFeed 1).totalCount ∧
       (Briefing.summarizeNeos Briefing.negMissFeed 1).lt3 +
           (Briefing.summarizeNeos Briefing.negMissFeed 1).gte3lt4 +
           (Briefing.summarizeNeos Briefing.negMissFeed 1).gte4 =
         (Briefing.summarizeNeos Briefing.negMissFeed 1).totalCount ∧
       0 ≤ (Briefing.summarizeNeos Briefing.negMissFeed 1).minMissDistanceKm) := by
  intro h
  exact absurd h.2.2 (by decide)

/-- C2 amended: for every feed, hazardousCount ≤ totalCount and the three
buckets sum to totalCount, unconditionally; and provided every valid
(finite-parseable) first-entry miss distance in the feed is nonnegative —
as genuine distances are — the minMissDistanceKm of the summary is
nonnegative as well. -/
theorem C2_summary_invariants (feed : Briefing.NasaNeoFeed) (days : ℚ) :
    (Briefing.summarizeNeos feed days).hazardousCount ≤
      (Briefing.summarizeNeos feed days).totalCount ∧
    (Briefing.summarizeNeos feed days).lt3 +
        (Briefing.summarizeNeos feed days).gte3lt4 +
        (Briefing.summarizeNeos feed days).gte4 =
      (Briefing.summarizeNeos feed days).totalCount ∧
    ((∀ q ∈ Briefing.validMisses feed, 0 ≤ q) →
      0 ≤ (Briefing.summarizeNeos feed days).minMissDistanceKm) := by
  obtain ⟨h1, h2, h3, h4, h5, h6⟩ := Briefing.summarizeNeos_spec feed days
  refine ⟨?_, ?_, fun hnn => ?_⟩
  · rw [h1, h2]
    exact List.countP_le_length _
  · rw [h1, h3, h4, h5]
    simpa using Briefing.countP_not_add (Briefing.flattenFeed feed)
  · rw [h6]
    unfold Briefing.specMinMissJs
    split_ifs with hneg
    · exact le_refl 0
    · unfold Briefing.specMinMiss
      cases hv : Briefing.validMisses feed with
      | nil => simp
      | cons x xs =>
        have hx : 0 ≤ x := hnn x (by rw [hv]; exact List.mem_cons_self x xs)
        exact Briefing.foldl_min_nonneg xs x hx
          (fun q hq => hnn q (by rw [hv]; exact List.mem_cons_of_mem x hq))

/-- Witness for C2 at a concrete benign feed, discharging the
nonnegativity proviso of the minimum-miss conjunct there. -/
theorem C2_summary_invariants_witness :
    (∀ q ∈ Briefing.validMisses Briefing.benignFeed, 0 ≤ q) ∧
    (Briefing.summarizeNeos Briefing.benignFeed 1).hazardousCount ≤
      (Briefing.summarizeNeos Briefing.benignFeed 1).totalCount ∧
    (Briefing.summarizeNeos Briefing.benignFeed 1).lt3 +
        (Briefing.summarizeNeos Briefing.benignFeed 1).gte3lt4 +
        (Briefing.summarizeNeos Briefing.benignFeed 1).gte4 =
      (Briefing.summarizeNeos Briefing.benignFeed 1).totalCount ∧
    0 ≤ (Briefing.summarizeNeos Briefing.benignFeed 1).minMissDistanceKm :=
  ⟨by decide,
   (C2_summary_invariants Briefing.benignFeed 1).1,
   (C2_summary_invariants Briefing.benignFeed 1).2.1,
   (C2_summary_invariants Briefing.benignFeed 1).2.2 (by decide)⟩

/-- C3: when any adapter fails the run exits with code 1, the briefing
file is not persisted; and when geocoding succeeds with zero candidates
(status below 400, empty candidate list) only the geocoding adapter has
been invoked — the ISS, launch, picture and object-feed adapters never
start. -/
theorem C3_adapter_failure_aborts
    (u : Briefing.Upstream) (args : Briefing.RunArgs) (now : ℚ)
    (dist : ℚ → ℚ → ℚ → ℚ → ℚ)
    (h : Briefing.adapterFailure u args) :
    (Briefing.runMain u args now dist).exitCode = 1 ∧
    (Briefing.runMain u args now dist).fileWritten = false ∧
    (Briefing.runMain u args now dist).briefing = none ∧
    (∀ st : ℕ, st < 400 →
      u.nominatim = Except.ok (st, ([] : List Briefing.NominatimResult)) →
      (Briefing.runMain u args now dist).invoked = ["Nominatim search"]) := by
  cases hc : Briefing.getCityLocation u.nominatim args.city with
  | error e =>
    have hr : Briefing.runMain u args now dist =
        { invoked := ["Nominatim search"], fileWritten := false, exitCode := 1,
          briefing := none } := by
      unfold Briefing.runMain
      rw [hc]
    rw [hr]
    exact ⟨rfl, rfl, rfl, fun st hst hn => rfl⟩
  | ok loc =>
    have hzero : ∀ st : ℕ, st < 400 →
        u.nominatim ≠ Except.ok (st, ([] : List Briefing.NominatimResult)) := by
      intro st hst hn
      have hloc : Briefing.getCityLocation u.nominatim args.city =
          Except.error ("City not found: " ++ args.city) := by
        rw [hn]
        show (if 400 ≤ st then
            Except.error ("Nominatim HTTP " ++ toString st)
          else Except.error ("City not found: " ++ args.city)) =
            Except.error ("City not found: " ++ args.city)
        rw [if_neg (by omega)]
      rw [hloc] at hc
      exact absurd hc (by simp)
    cases hi : Briefing.getIssNow u.issNow with
    | error e1 =>
      have hr : Briefing.runMain u args now dist =
          { invoked := ["Nominatim search", "ISS now", "SpaceX next",
              "NASA APOD", "NASA NEO feed"],
            fileWritten := false, exitCode := 1, briefing := none } := by
        unfold Briefing.runMain
        rw [hc, hi]
      rw [hr]
      exact ⟨rfl, rfl, rfl, fun st hst hn => absurd hn (hzero st hst)⟩
    | ok iss =>
      cases hs : Briefing.getSpaceXNext u.spacexNext with
      | error e2 =>
        have hr : Briefing.runMain u args now dist =
            { invoked := ["Nominatim search", "ISS now", "SpaceX next",
                "NASA APOD", "NASA NEO feed"],
              fileWritten := false, exitCode := 1, briefing := none } := by
          unfold Briefing.runMain
          rw [hc, hi, hs]
        rw [hr]
        exact ⟨rfl, rfl, rfl, fun st hst hn => absurd hn (hzero st hst)⟩
      | ok launch =>
        cases ha : Briefing.getApod u.apod with
        | error e3 =>
          have hr : Briefing.runMain u args now dist =
              { invoked := ["Nominatim search", "ISS now", "SpaceX next",
                  "NASA APOD", "NASA NEO feed"],
                fileWritten := false, exitCode := 1, briefing := none } := by
            unfold Briefing.runMain
            rw [hc, hi, hs, ha]
          rw [hr]
          exact ⟨rfl, rfl, rfl, fun st hst hn => absurd hn (hzero st hst)⟩
        | ok ap =>
          cases hn : Briefing.getNeoFeed u.neoFeed with
          | error e4 =>
            have hr : Briefing.runMain u args now dist =
                { invoked := ["Nominatim search", "ISS now", "SpaceX next",
                    "NASA APOD", "NASA NEO feed"],
                  fileWritten := false, exitCode := 1, briefing := none } := by
              unfold Briefing.runMain
              rw [hc, hi, hs, ha, hn]
            rw [hr]
            exact ⟨rfl, rfl, rfl, fun st hst hnn => absurd hnn (hzero st hst)⟩
          | ok feed =>
            exfalso
            rcases h with ⟨e, he⟩ | ⟨e, he⟩ | ⟨e, he⟩ | ⟨e, he⟩ | ⟨e, he⟩ <;>
              simp_all

/-- Witness for C3 at a concrete oracle whose geocoding call succeeds with
zero candidates. -/
theorem C3_adapter_failure_aborts_witness :
    Briefing.adapterFailure Briefing.geoEmptyUpstream Briefing.sampleArgs ∧
    (Briefing.runMain Briefing.geoEmptyUpstream Briefing.sampleArgs 0
        Briefing.zeroDist).exitCode = 1 ∧
    (Briefing.runMain Briefing.geoEmptyUpstream Briefing.sampleArgs 0
        Briefing.zeroDist).fileWritten = false ∧
    (Briefing.runMain Briefing.geoEmptyUpstream Briefing.sampleArgs 0
        Briefing.zeroDist).briefing = none ∧
    (Briefing.runMain Briefing.geoEmptyUpstream Briefing.sampleArgs 0
        Briefing.zeroDist).invoked = ["Nominatim search"] := by
  have hfail : Briefing.adapterFailure Briefing.geoEmptyUpstream
      Briefing.sampleArgs :=
    Or.inl ⟨"City not found: Zurich", rfl⟩
  have h := C3_adapter_failure_aborts Briefing.geoEmptyUpstream
    Briefing.sampleArgs 0 Briefing.zeroDist hfail
  exact ⟨hfail, h.1, h.2.1, h.2.2.1, h.2.2.2 200 (by omega) rfl⟩

/-- C4: for every valid start date and requested days ≥ 1, the derived
NEO feed range keeps the start date unchanged and its end date is the
start date advanced by min(days, 7) − 1 calendar days (iterated UTC
calendar successor); the witness instantiates days = 10 and 2024-01-01,
yielding end date 2024-01-07. -/
theorem C4_neo_date_range (date : Briefing.Civil) (days : ℕ)
    (hv : Briefing.validCivil date) (hd : 1 ≤ days) :
    (Briefing.deriveNeoRange date days).1 = date ∧
    (Briefing.deriveNeoRange date days).2 =
      Briefing.nextDay^[min days 7 - 1] date := by
  refine ⟨rfl, ?_⟩
  show Briefing.addDays date (min (days : ℤ) 7 - 1) = _
  have hcast : min (days : ℤ) 7 - 1 = ((min days 7 - 1 : ℕ) : ℤ) := by
    omega
  rw [hcast]
  exact Briefing.addDays_iterate date hv (min days 7 - 1)

/-- Witness for C4: days = 10 at 2024-01-01 derives the inclusive range
2024-01-01 to 2024-01-07, clamped to the 7-day window. -/
theorem C4_neo_date_range_witness :
    Briefing.validCivil ⟨2024, 1, 1⟩ ∧ (1 : ℕ) ≤ 10 ∧
      Briefing.deriveNeoRange ⟨2024, 1, 1⟩ 10 = (⟨2024, 1, 1⟩, ⟨2024, 1, 7⟩) := by
  refine ⟨by decide, by decide, ?_⟩
  obtain ⟨h1, h2⟩ := C4_neo_date_range ⟨2024, 1, 1⟩ 10 (by decide) (by decide)
  have h3 : Briefing.nextDay^[min 10 7 - 1] (⟨2024, 1, 1⟩ : Briefing.Civil) =
      ⟨2024, 1, 7⟩ := by decide
  have h4 : Briefing.deriveNeoRange ⟨2024, 1, 1⟩ 10 =
      ((Briefing.deriveNeoRange ⟨2024, 1, 1⟩ 10).1,
       (Briefing.deriveNeoRange ⟨2024, 1, 1⟩ 10).2) := rfl
  rw [h4, h1, h2, h3]

/-- C5: haversineKm is symmetric in its two points, and the distance from
any point to itself is 0. -/
theorem C5_haversine_symm_self :
    (∀ lat1 lon1 lat2 lon2 : ℝ,
      Briefing.haversineKm lat1 lon1 lat2 lon2 =
        Briefing.haversineKm lat2 lon2 lat1 lon1) ∧
    (∀ lat lon : ℝ, Briefing.haversineKm lat lon lat lon = 0) := by
  constructor
  · intro lat1 lon1 lat2 lon2
    unfold Briefing.haversineKm
    rw [Briefing.havA_symm lat1 lon1 lat2 lon2]
  · intro lat lon
    unfold Briefing.haversineKm
    rw [Briefing.havA_self, Real.sqrt_zero, sub_zero, Real.sqrt_one]
    unfold Briefing.atan2
    rw [if_pos (by norm_num : (0:ℝ) < 1)]
    norm_num [Real.arctan_zero]

/-- C6: the threat score is monotonically non-decreasing in the hazardous
count, holding all other inputs fixed. -/
theorem C6_score_mono_hazardousCount
    (neo : Briefing.NeoSummary) (issDistanceKm hoursToLaunch : ℚ)
    (h1 h2 : ℕ) (hle : h1 ≤ h2) :
    (Briefing.computeThreat { neo with hazardousCount := h1 }
        issDistanceKm hoursToLaunch).1 ≤
      (Briefing.computeThreat { neo with hazardousCount := h2 }
        issDistanceKm hoursToLaunch).1 := by
  unfold Briefing.computeThreat
  apply Briefing.jsRound_mono
  have : (h1 : ℚ) ≤ (h2 : ℚ) := by exact_mod_cast hle
  simp only []
  linarith

/-- Witness for C6 at a concrete summary with hazardous counts 1 ≤ 4. -/
theorem C6_score_mono_hazardousCount_witness :
    (1 : ℕ) ≤ 4 ∧
      (Briefing.computeThreat
          { days := 3, totalCount := 5, hazardousCount := 1,
            maxEstimatedDiameterMeters := 120, minMissDistanceKm := 500000,
            lt3 := 4, gte3lt4 := 0, gte4 := 1 } 1000 12).1 ≤
        (Briefing.computeThreat
          { days := 3, totalCount := 5, hazardousCount := 4,
            maxEstimatedDiameterMeters := 120, minMissDistanceKm := 500000,
            lt3 := 4, gte3lt4 := 0, gte4 := 1 } 1000 12).1 :=
  ⟨by decide,
   C6_score_mono_hazardousCount
     { days := 3, totalCount := 5, hazardousCount := 1,
       maxEstimatedDiameterMeters := 120, minMissDistanceKm := 500000,
       lt3 := 4, gte3lt4 := 0, gte4 := 1 } 1000 12 1 4 (by decide)⟩

/-- C7 as stated is false on the code: the guard of line 358 excludes
only NaN, so a first-entry string coercing to −Infinity wins the running
minimum and the finiteness floor of line 362 turns the result into 0 —
on negInfFeed (entries −Infinity and 5) the code reports 0 while the
claimed minimum over valid entries is 5. -/
theorem C7_counterexample_negative_infinity :
    (Briefing.summarizeNeos Briefing.negInfFeed 1).minMissDistanceKm = 0 ∧
    Briefing.specMinMiss Briefing.negInfFeed = 5 ∧
    ¬ ((Briefing.summarizeNeos Briefing.negInfFeed 1).minMissDistanceKm =
        Briefing.specMinMiss Briefing.negInfFeed) := by
  decide

/-- C7 amended: the minimum miss distance of the summary follows the JS
extended-number semantics of the loop — entries that are missing or whose
coercion is NaN or +Infinity never lower the minimum; if some first-entry
coercion is −Infinity the running minimum becomes −Infinity and the final
finiteness floor reports 0; otherwise the result is the minimum over the
valid finite first-entry distances, defaulting to 0 when no object
contributes one. -/
theorem C7_minMiss_characterization (feed : Briefing.NasaNeoFeed) (days : ℚ) :
    (Briefing.summarizeNeos feed days).minMissDistanceKm =
      Briefing.specMinMissJs feed :=
  (Briefing.summarizeNeos_spec feed days).2.2.2.2.2

/-- C8: when all adapters succeed, the run exits 0 and the persisted
hoursToLaunch is computeHoursToLaunch of the parsed launch timestamp;
that function returns 0 on an unparseable timestamp (so the run does not
fail) and (t − now)/3,600,000 hours on a parsed timestamp t. -/
theorem C8_hours_to_launch
    (u : Briefing.Upstream) (args : Briefing.RunArgs) (now : ℚ)
    (dist : ℚ → ℚ → ℚ → ℚ → ℚ)
    (loc : Briefing.Location) (iss : Briefing.IssNow)
    (launch : Briefing.LaunchData) (ap : Briefing.ApodData)
    (feed : Briefing.NasaNeoFeed)
    (h1 : Briefing.getCityLocation u.nominatim args.city = .ok loc)
    (h2 : Briefing.getIssNow u.issNow = .ok iss)
    (h3 : Briefing.getSpaceXNext u.spacexNext = .ok launch)
    (h4 : Briefing.getApod u.apod = .ok ap)
    (h5 : Briefing.getNeoFeed u.neoFeed = .ok feed)
    (h6 : u.writeOk = true) :
    (Briefing.runMain u args now dist).exitCode = 0 ∧
    ((Briefing.runMain u args now dist).briefing.map
        fun b => b.hoursToLaunch) =
      some (Briefing.computeHoursToLaunch launch.dateUtcMs now) ∧
    Briefing.computeHoursToLaunch none now = 0 ∧
    (∀ t : ℚ, Briefing.computeHoursToLaunch (some t) now = (t - now) / 3600000) := by
  unfold Briefing.runMain
  rw [h1, h2, h3, h4, h5, h6]
  exact ⟨rfl, rfl, rfl, fun t => rfl⟩

/-- Witness for C8 at a concrete oracle whose launch date string is
unparseable: the run still exits 0 and persists hoursToLaunch = 0. -/
theorem C8_hours_to_launch_witness :
    (Briefing.runMain Briefing.badDateUpstream Briefing.sampleArgs 0
        Briefing.zeroDist).exitCode = 0 ∧
    ((Briefing.runMain Briefing.badDateUpstream Briefing.sampleArgs 0
        Briefing.zeroDist).briefing.map fun b => b.hoursToLaunch) = some 0 ∧
    Briefing.computeHoursToLaunch none 0 = 0 ∧
    Briefing.computeHoursToLaunch (some 7200000) 0 = (7200000 - 0) / 3600000 := by
  have h := C8_hours_to_launch Briefing.badDateUpstream Briefing.sampleArgs 0
    Briefing.zeroDist Briefing.badDateLoc Briefing.badDateIss
    Briefing.badDateLaunch Briefing.badDateApod
    { near_earth_objects := [] } rfl rfl rfl rfl rfl rfl
  refine ⟨h.1, ?_, h.2.2.1, h.2.2.2 7200000⟩
  rw [h.2.1]
  rfl

/-- C9 as stated is false on the code: the value 5/2 — the JS coercion of
the token "2.5" — is accepted by the days validation although it is not an
integer, so acceptance is not restricted to positive integers. -/
theorem C9_counterexample_fractional_days :
    Briefing.resolveDays (some (some (5/2))) = Except.ok (5/2) ∧
      (5/2 : ℚ).den ≠ 1 := by
  constructor
  · unfold Briefing.resolveDays
    norm_num
  · norm_num

/-- C9 amended: the days resolution defaults to 3 when the flag is absent,
fails with the validation error when the coercion of the token is NaN, and
otherwise accepts exactly the numeric values ≥ 1 — integer or not. -/
theorem C9_days_resolution (v : ℚ) :
    Briefing.resolveDays none = Except.ok 3 ∧
    Briefing.resolveDays (some none) =
      Except.error "Missing or invalid argument: --days <number>" ∧
    Briefing.resolveDays (some (some v)) =
      (if 1 ≤ v then Except.ok v
        else Except.error "Missing or invalid argument: --days <number>") := by
  refine ⟨by unfold Briefing.resolveDays; norm_num, rfl, ?_⟩
  unfold Briefing.resolveDays
  by_cases h : (1 : ℚ) ≤ v
  · rw [if_pos h]
    have hcond : ¬ (v = 0 ∨ v < 1) := by
      rintro (rfl | hlt) <;> linarith
    simp only [Option.getD, if_neg hcond]
  · rw [if_neg h]
    have hcond : v = 0 ∨ v < 1 := Or.inr (by linarith)
    simp only [Option.getD, if_pos hcond]

/-- C10: the middle histogram bucket is always 0: the synthetic magnitude
is 4.0 for hazardous objects and 2.9 otherwise, so lt3 counts exactly the
non-hazardous objects, gte4 equals the hazardous count, and gte3lt4 is
never incremented. -/
theorem C10_middle_bucket_empty (feed : Briefing.NasaNeoFeed) (days : ℚ) :
    (Briefing.summarizeNeos feed days).gte3lt4 = 0 ∧
    (Briefing.summarizeNeos feed days).lt3 =
      (Briefing.flattenFeed feed).countP
        (fun n => !n.is_potentially_hazardous_asteroid) ∧
    (Briefing.summarizeNeos feed days).gte4 =
      (Briefing.summarizeNeos feed days).hazardousCount := by
  obtain ⟨h1, h2, h3, h4, h5, h6⟩ := Briefing.summarizeNeos_spec feed days
  exact ⟨h4, h3, by rw [h5, h2]⟩
